import Mathlib

/-!
Verification development for the eubot analytics repository.

Shallow embeddings of the query interpreter (modules/ai_parser.py), the
router (modules/llm_router.py) and the provider fetchers
(modules/fetchers/ecb_adapter.py, modules/fetchers/ebc_adapter.py,
modules/fetchers/eurostat_adapter.py), together with theorems checking the
specification's claims against them.

Conventions used throughout:
- Python dicts are modelled as ordered association lists with
  first-insertion-order, last-value-wins semantics (pyDict / pyUpsert).
- Calendar dates are an abstract ordinal (Int); the pandas parsers
  pd.to_datetime / pd.to_numeric with errors coerce are modelled as
  function parameters String to Option Int / Option Rat, so an
  unparseable cell is none (NaT / NaN).
- Blocking HTTP calls are modelled by passing the upstream response (or a
  response oracle) as an argument; functions that perform requests also
  return the list of requests they issued, so absence of network access is
  the emptiness of that list.
- A raised Python exception is Except.error; a normal return is Except.ok.
-/

namespace EuBot

/-- Python str.lower (character-wise, kernel-reducible). -/
def pyLower (s : String) : String := String.mk (s.data.map Char.toLower)

/-- Python str.upper. -/
def pyUpper (s : String) : String := String.mk (s.data.map Char.toUpper)

/-- Python str.strip: whitespace removed from both ends. -/
def pyStrip (s : String) : String :=
  String.mk (((s.data.dropWhile Char.isWhitespace).reverse.dropWhile Char.isWhitespace).reverse)

/-- Characters of the lower-cased form of a string. -/
def lc (s : String) : List Char := s.data.map Char.toLower

/-- Split on a separator character (Python str.split with a one-character
separator: returns one piece even for the empty string). -/
def splitChar (sep : Char) : List Char → List (List Char)
  | [] => [[]]
  | c :: cs =>
    let r := splitChar sep cs
    if c == sep then [] :: r
    else
      match r with
      | [] => [[c]]
      | h :: t => (c :: h) :: t

def pySplit (s : String) (sep : Char) : List String := (splitChar sep s.data).map String.mk

/-- Code-point lexicographic order on strings (Python str comparison),
written to be kernel-reducible. -/
def lexLe : List Char → List Char → Bool
  | [], _ => true
  | _ :: _, [] => false
  | a :: as, b :: bs =>
    if a.toNat < b.toNat then true
    else if b.toNat < a.toNat then false
    else lexLe as bs

/-- Comparison of query-string items by key (what sort_keys sorts by). -/
def keyLe (a b : String × String) : Bool := lexLe a.1.data b.1.data

/-- Strictly increasing keys: the shape of a sorted duplicate-free
query-string item list. -/
def keyLt (a b : String × String) : Prop := lexLe a.1.data b.1.data = true ∧ a.1 ≠ b.1

/-- needle occurs at the head of hay. -/
def isPre : List Char → List Char → Bool
  | [], _ => true
  | _ :: _, [] => false
  | n :: ns, h :: hs => n == h && isPre ns hs

/-- Python substring containment: needle occurs somewhere in hay. -/
def containsSub (hay needle : List Char) : Bool :=
  match hay with
  | [] => isPre needle []
  | _ :: t => isPre needle hay || containsSub t needle

/-- Python the in operator on strings. -/
def containsS (hay needle : String) : Bool := containsSub hay.data needle.data

/-- Python dict assignment d[k] = v on an ordered association list:
keeps first-insertion order, overwrites the value of an existing key. -/
def pyUpsert {α : Type} (l : List (String × α)) (k : String) (v : α) : List (String × α) :=
  if l.any (fun p => p.1 == k) then
    l.map (fun p => if p.1 == k then (k, v) else p)
  else l ++ [(k, v)]

/-- Python dict.update: upsert every item of items into base, in order. -/
def pyDictUpdate {α : Type} (base items : List (String × α)) : List (String × α) :=
  items.foldl (fun acc kv => pyUpsert acc kv.1 kv.2) base

/-- A Python dict literal: duplicate keys keep their first position but the
last value wins. -/
def pyDict {α : Type} (items : List (String × α)) : List (String × α) :=
  pyDictUpdate [] items

/-- Python dict lookup (first matching key of the association list). -/
def getA {α : Type} : List (String × α) → String → Option α
  | [], _ => none
  | (k, v) :: t, q => if k == q then some v else getA t q

/-- Insert into a sorted list (stable: goes before later equal elements). -/
def insBy {α : Type} (le : α → α → Bool) (x : α) : List α → List α
  | [] => [x]
  | y :: ys => if le x y then x :: y :: ys else y :: insBy le x ys

/-- Stable insertion sort, modelling sorted / DataFrame.sort_values. -/
def sortBy {α : Type} (le : α → α → Bool) : List α → List α
  | [] => []
  | x :: xs => insBy le x (sortBy le xs)

/-- An abstract calendar-date ordinal (what a parsed timestamp sorts by). -/
abbrev Date := Int

/-- A finite numeric observation value. -/
abbrev Value := Rat

/-- A query-plan parameter value: string or integer. -/
inductive PVal where
  | s (v : String)
  | num (v : Int)
deriving DecidableEq

-- =====================================================================
-- modules/ai_parser.py
-- =====================================================================

namespace AiParser

/-- COUNTRY_CODES of ai_parser.py, in source order. -/
def COUNTRY_CODES : List (String × String) := [
  ("euro area", "EA"), ("eurozone", "EA"), ("european union", "EU27_2020"),
  ("italy", "IT"), ("france", "FR"), ("germany", "DE"), ("spain", "ES"),
  ("portugal", "PT"), ("belgium", "BE"), ("netherlands", "NL"), ("austria", "AT"),
  ("greece", "GR"), ("ireland", "IE"), ("finland", "FI"), ("luxembourg", "LU"),
  ("denmark", "DK"), ("sweden", "SE"), ("poland", "PL"), ("romania", "RO"),
  ("czech", "CZ"), ("czechia", "CZ"), ("hungary", "HU"), ("slovakia", "SK"),
  ("slovenia", "SI"), ("croatia", "HR"), ("bulgaria", "BG")]

/-- detect_countries: first name occurring as a substring wins, else EA. -/
def detect_countries (text : String) : String :=
  let t := lc text
  match COUNTRY_CODES.find? (fun p => containsSub t p.1.data) with
  | some p => p.2
  | none => "EA"

/-- Leftmost match of the since regex: the literal word since, optional
whitespace, then exactly four digits captured. -/
def sinceHere (cs : List Char) : Option String :=
  if isPre "since".data cs then
    let r := (cs.drop 5).dropWhile Char.isWhitespace
    let d4 := r.take 4
    if d4.length == 4 && d4.all Char.isDigit then some (String.mk d4) else none
  else none

def findSince : List Char → Option String
  | [] => none
  | c :: cs =>
    match sinceHere (c :: cs) with
    | some y => some y
    | none => findSince cs

/-- Numeric value of a digit list. -/
def digitsVal (l : List Char) : Nat :=
  List.foldl (fun a c => a * 10 + (c.toNat - 48)) 0 l

/-- Leftmost match of last, whitespace, digits, whitespace, unitWord. -/
def lastNumHere (unitWord : List Char) (cs : List Char) : Option Nat :=
  if isPre "last".data cs then
    let r := (cs.drop 4).dropWhile Char.isWhitespace
    let ds := r.takeWhile Char.isDigit
    if ds.isEmpty then none
    else if isPre unitWord ((r.dropWhile Char.isDigit).dropWhile Char.isWhitespace) then
      some (digitsVal ds)
    else none
  else none

def findLastNum (unitWord : List Char) : List Char → Option Nat
  | [] => none
  | c :: cs =>
    match lastNumHere unitWord (c :: cs) with
    | some n => some n
    | none => findLastNum unitWord cs

/-- detect_period of ai_parser.py.  today is the current date ordinal and
fmtYM models strftime applied to today minus a day count; the four
branches are checked in source order, first match wins. -/
def detect_period (today : Int) (fmtYM : Int → String) (text : String) : List (String × PVal) :=
  let t := lc text
  match findSince t with
  | some y => [("startPeriod", PVal.s (y ++ "-01"))]
  | none =>
    match findLastNum "year".data t with
    | some n => [("startPeriod", PVal.s (fmtYM (today - (n : Int) * 365)))]
    | none =>
      match findLastNum "month".data t with
      | some n => [("startPeriod", PVal.s (fmtYM (today - (n : Int) * 30)))]
      | none => [("startPeriod", PVal.s (fmtYM (today - 5 * 365)))]

/-- One INDICATOR_CATALOG entry; absent dict keys are none. -/
structure CatEntry where
  provider : String
  flow : Option String := none
  dataset : Option String := none
  series : Option String := none
  pattern : Option String := none
  params : Option (List (String × String)) := none
  freq : Option String := none
  label : String
deriving DecidableEq

/-- INDICATOR_CATALOG of ai_parser.py, in source order. -/
def INDICATOR_CATALOG : List (String × CatEntry) := [
  ("gdp_real",
    { provider := "ECB", flow := some "MNA",
      series := some "Q.N.I8.W2.S1.S1.B.B1GQ._Z._Z._Z.EUR.LR.N",
      freq := some "Q", label := "Real GDP (chain-linked)" }),
  ("gdp_per_capita",
    { provider := "ECB", flow := some "MNA",
      series := some "A.N.I9.W2.S1.S1.B.B1GQ._Z._Z._Z.PE_R_POP.V._Z",
      freq := some "A", label := "GDP per capita (Purchasing Power Standards, Euro area)" }),
  ("inflation",
    { provider := "ECB", flow := some "ICP",
      series := some "M.U2.N.000000.4.ANR",
      freq := some "M", label := "Inflation (HICP YoY)" }),
  ("unemployment",
    { provider := "Eurostat", dataset := some "une_rt_m",
      params := some [("sex", "T"), ("age", "Y25-74"), ("unit", "PC_ACT"), ("s_adj", "SA")],
      label := "Unemployment rate" }),
  ("employment",
    { provider := "Eurostat", dataset := some "lfsi_emp_a",
      params := some [("indic_em", "EMP_LFS"), ("sex", "T"), ("age", "Y20-64"), ("unit", "PC_POP")],
      label := "Employment rate" }),
  ("poverty_rate",
    { provider := "Eurostat", dataset := some "ilc_peps01",
      params := some [("unit", "PC"), ("sex", "T"), ("age", "TOTAL")],
      label := "Population at risk of poverty or social exclusion (% of total)" }),
  ("debt_gdp",
    { provider := "Eurostat", dataset := some "gov_10q_ggdebt",
      params := some [("sector", "S13"), ("unit", "PC_GDP")],
      label := "Government debt (% GDP)" }),
  ("industrial_production",
    { provider := "Eurostat", dataset := some "sts_inpr_m",
      params := some [("indic_bt", "PRD"), ("nace_r2", "B-D"), ("s_adj", "SCA"), ("unit", "I15")],
      label := "Industrial production index" }),
  ("deposit_rate",
    { provider := "ECB", flow := some "FM",
      series := some "D.U2.EUR.4F.KR.DFR.LEV",
      freq := some "D", label := "Deposit Facility Rate" }),
  ("refinancing_rate",
    { provider := "ECB", flow := some "FM",
      series := some "B.U2.EUR.4F.KR.MRR_FR.LEV",
      freq := some "D", label := "Main Refinancing Operations – Fixed Rate Tenders" }),
  ("borrowing_households",
    { provider := "ECB", flow := some "MIR",
      series := some "M.U2.B.A2C.AM.R.A.2250.EUR.N",
      freq := some "M", label := "Cost of borrowing for households (house purchase)" }),
  ("yield_curve_10y",
    { provider := "ECB", flow := some "YC",
      series := some "B.U2.EUR.4F.G_N_A.SV_C_YM.SR_10Y",
      freq := some "D", label := "Yield curve 10-year AAA government bond" }),
  ("money_supply",
    { provider := "ECB", flow := some "BSI",
      series := some "M.U2.Y.V.M30.X.1.U2.2300.Z01.E",
      freq := some "M", label := "Money supply (M3)" }),
  ("loans_households",
    { provider := "ECB", flow := some "BSI",
      series := some "M.U2.N.A.A20.A.1.U2.2240.Z01.E",
      freq := some "M", label := "Loans to households" }),
  ("exchange_rate",
    { provider := "ECB", flow := some "EXR",
      pattern := some "D.{pair}.EUR.SP00.A",
      freq := some "D", label := "Exchange rate EUR/{pair}" }),
  ("hours_worked",
    { provider := "ECB", flow := some "ENA",
      series := some "Q.Y.I8.W2.S1.S1._Z.EMP._Z._T._Z.HW._Z.N",
      freq := some "Q", label := "Hours worked" })]

/-- SYNONYMS of ai_parser.py, in source order. -/
def SYNONYMS : List (String × List String) := [
  ("gdp_real", ["real gdp", "volume gdp", "gdp constant prices", "economic growth"]),
  ("gdp_per_capita", ["gdp per capita", "income per person", "purchasing power", "pps gdp", "per capita gdp"]),
  ("inflation", ["inflation", "hicp", "prices", "consumer prices", "price level"]),
  ("unemployment", ["unemployment", "jobless", "jobless rate"]),
  ("employment", ["employment", "jobs", "workforce", "employment rate"]),
  ("poverty_rate", ["poverty", "income inequality", "social exclusion", "at risk of poverty"]),
  ("debt_gdp", ["public debt", "government debt", "debt to gdp", "fiscal debt"]),
  ("industrial_production", ["industrial production", "industry output", "manufacturing index", "industrial index"]),
  ("hours_worked", ["hours worked", "working hours", "labour hours"]),
  ("deposit_rate", ["deposit rate", "ecb deposit", "deposit facility", "facility rate"]),
  ("refinancing_rate", ["refinancing rate", "main refinancing", "refi rate", "ecb tender", "mro", "refinancing operations"]),
  ("borrowing_households", ["cost of borrowing", "household borrowing", "mortgage rate", "home loan", "housing loan", "loan rate"]),
  ("yield_curve_10y", ["10-year yield", "bond yield", "government bond", "long-term rate", "sovereign yield", "yield curve"]),
  ("money_supply", ["money supply", "m3", "liquidity", "monetary aggregate"]),
  ("loans_households", ["loans to households", "household loans", "consumer credit", "personal loans", "mortgages"]),
  ("exchange_rate", ["exchange rate", "eur to", "eur/", "eur ", "eurusd", "eur usd",
    "euro dollar", "euro pound", "euro yen", "currency", "forex", "fx", "eur gbp", "eur jpy"])]

/-- match_indicator: every catalog key one of whose synonyms occurs in the
text, in table iteration order. -/
def match_indicator (t : List Char) : List String :=
  (SYNONYMS.filter (fun p => p.2.any (fun s => containsSub t s.data))).map Prod.fst

/-- The fx_aliases dict literal of interpret_query_with_ai, exactly as
written in the source: the key krone appears twice (SEK then NOK). -/
def fx_aliases_literal : List (String × String) := [
  ("usd", "USD"), ("dollar", "USD"),
  ("gbp", "GBP"), ("pound", "GBP"),
  ("jpy", "JPY"), ("yen", "JPY"),
  ("chf", "CHF"), ("franc", "CHF"),
  ("pln", "PLN"), ("zloty", "PLN"),
  ("try", "TRY"), ("lira", "TRY"),
  ("sek", "SEK"), ("krone", "SEK"),
  ("nok", "NOK"), ("krone", "NOK"),
  ("huf", "HUF"), ("forint", "HUF"),
  ("cny", "CNY"), ("yuan", "CNY")]

/-- The dict the literal evaluates to under Python semantics. -/
def fx_aliases : List (String × String) := pyDict fx_aliases_literal

/-- A character of the regex class slash-whitespace-hyphen. -/
def fxSep (c : Char) : Bool := c == '/' || c.isWhitespace || c == '-'

/-- The regex eur-or-euro, separators, als matches at this position.
Every currency alias is alphabetic, so greedy separator munching is exact. -/
def fxHere (als : List Char) (cs : List Char) : Bool :=
  (isPre "eur".data cs && isPre als ((cs.drop 3).dropWhile fxSep))
  || (isPre "euro".data cs && isPre als ((cs.drop 4).dropWhile fxSep))

/-- re.search of the fx regex for one als over the whole text. -/
def fxSearch (als : List Char) : List Char → Bool
  | [] => false
  | c :: cs => fxHere als (c :: cs) || fxSearch als cs

/-- The for-loop over fx_aliases: first als whose regex matches. -/
def fxFirst (t : List Char) : Option (String × String) :=
  fx_aliases.find? (fun p => fxSearch p.1.data t)

/-- str.format substituting the pair placeholder (the braced token is
matched character by character; structural recursion so it reduces). -/
def fmtPairAux (code : List Char) : List Char → List Char
  | '\x7b' :: 'p' :: 'a' :: 'i' :: 'r' :: '\x7d' :: rest => code ++ fmtPairAux code rest
  | c :: cs => c :: fmtPairAux code cs
  | [] => []

def formatPair (tpl code : String) : String := String.mk (fmtPairAux code.data tpl.data)

/-- A query plan as built by interpret_query_with_ai (dict keys absent
from a branch are none). -/
structure Plan where
  provider : String
  flow : Option String := none
  series : Option String := none
  dataset : Option String := none
  freq : Option String := none
  indicator : String
  params : List (String × PVal)
deriving DecidableEq

/-- interpret_query_with_ai of ai_parser.py.

llmCat is the outcome of the optional llm_detect_category call (none when
the client is unconfigured or the call failed); today and fmtYM are the
ambient clock as in detect_period.  A raised exception (KeyError on a
catalog entry missing the accessed field, IndexError) is Except.error. -/
def interpret (llmCat : Option String) (today : Int) (fmtYM : Int → String)
    (userText : String) : Except String Plan :=
  let text := pyLower userText
  let country := detect_countries text
  let params := detect_period today fmtYM text
  match fxFirst text.data with
  | some ac =>
    match getA INDICATOR_CATALOG "exchange_rate" with
    | none => Except.error "KeyError: exchange_rate"
    | some meta =>
      match meta.flow, meta.pattern, meta.freq with
      | some fl, some pat, some fr =>
        Except.ok { provider := "ECB", flow := some fl,
                    series := some (formatPair pat ac.2),
                    freq := some fr,
                    indicator := formatPair meta.label ac.2,
                    params := params }
      | _, _, _ => Except.error "KeyError: fx meta"
  | none =>
    let m0 := match_indicator text.data
    let m1 := if m0.isEmpty then (match llmCat with | some c => [c] | none => []) else m0
    let m2 := if m1.isEmpty then ["inflation"] else m1
    match m2.head? with
    | none => Except.error "IndexError"
    | some key =>
      match getA INDICATOR_CATALOG key with
      | none => Except.error "KeyError: catalog"
      | some meta =>
        if meta.provider == "ECB" then
          match meta.flow, meta.series, meta.freq with
          | some fl, some se, some fr =>
            Except.ok { provider := "ECB", flow := some fl, series := some se,
                        freq := some fr, indicator := meta.label, params := params }
          | _, _, _ => Except.error "KeyError: series"
        else if meta.provider == "Eurostat" then
          match meta.dataset, meta.params with
          | some ds, some ps =>
            Except.ok { provider := "Eurostat", dataset := some ds,
                        params := pyDictUpdate (ps.map (fun kv => (kv.1, PVal.s kv.2))) [("geo", PVal.s country)],
                        indicator := meta.label }
          | _, _ => Except.error "KeyError: dataset"
        else
          Except.ok { provider := "ECB", flow := some "ICP",
                      series := some "M.U2.N.000000.4.ANR", freq := some "M",
                      indicator := "Inflation (Euro area, default)", params := params }

end AiParser

-- =====================================================================
-- modules/llm_router.py
-- =====================================================================

namespace LlmRouter

/-- A word character of the regex class backslash-w. -/
def wordChar (c : Char) : Bool := c.isAlphanum || c == '_'

/-- Word-boundary-delimited occurrence of w, scanning with the previous
character tracked (none at the start of the text). -/
def bndAux (w : List Char) (prev : Option Char) : List Char → Bool
  | [] => false
  | c :: cs =>
    (isPre w (c :: cs)
      && (match prev with | none => true | some p => !wordChar p)
      && (match (c :: cs).drop w.length with | [] => true | d :: _ => !wordChar d))
    || bndAux w (some c) cs

/-- re.search of a word with boundaries on both sides. -/
def bndSearch (w t : List Char) : Bool := bndAux w none t

/-- Occurrence with a left word boundary only. -/
def bndLeftAux (w : List Char) (prev : Option Char) : List Char → Bool
  | [] => false
  | c :: cs =>
    (isPre w (c :: cs) && (match prev with | none => true | some p => !wordChar p))
    || bndLeftAux w (some c) cs

def bndLeft (w t : List Char) : Bool := bndLeftAux w none t

/-- Occurrence with a right word boundary only. -/
def bndRight (w : List Char) : List Char → Bool
  | [] => false
  | c :: cs =>
    (isPre w (c :: cs)
      && (match (c :: cs).drop w.length with | [] => true | d :: _ => !wordChar d))
    || bndRight w cs

def compareWords : List String := ["compare", "vs", "versus", "between", "and"]

/-- The trend regex of detect_chart_mode: the left boundary binds only to
trend and the right boundary only to decline (alternation precedence). -/
def trendAlt (t : List Char) : Bool :=
  bndLeft "trend".data t
  || containsSub t "evolution".data || containsSub t "change".data
  || containsSub t "growth".data || containsSub t "rise".data
  || containsSub t "increase".data || containsSub t "fall".data
  || bndRight "decline".data t

/-- detect_chart_mode of llm_router.py. -/
def detect_chart_mode (text : String) : String :=
  let t := lc text
  if compareWords.any (fun w => bndSearch w.data t) then "compare"
  else if trendAlt t then "trend"
  else "single"

def growthWords : List String := ["growth", "increase", "rise", "expansion", "improve"]

def declineWords : List String := ["decline", "drop", "decrease", "fall", "slowdown", "recession"]

def comparisonWords : List String := ["compare", "vs", "versus", "difference"]

/-- detect_analysis_type of llm_router.py. -/
def detect_analysis_type (text : String) : String :=
  let t := lc text
  if growthWords.any (fun w => containsSub t w.data) then "growth"
  else if declineWords.any (fun w => containsSub t w.data) then "decline"
  else if comparisonWords.any (fun w => containsSub t w.data) then "comparison"
  else "neutral"

/-- The country-name list of detect_countries_in_text, in source order. -/
def routerCountries : List String := [
  "italy", "france", "germany", "spain", "portugal", "belgium",
  "netherlands", "austria", "greece", "ireland", "finland", "luxembourg",
  "poland", "sweden", "denmark", "romania", "hungary", "slovakia",
  "slovenia", "croatia", "bulgaria", "euro area", "eurozone"]

/-- detect_countries_in_text: names found as substrings; list(set(..)) is
modelled as duplicate removal (the scan produces no duplicates). -/
def detect_countries_in_text (text : String) : List String :=
  let t := lc text
  (routerCountries.filter (fun c => containsSub t c.data)).eraseDups

/-- A routed plan: the interpreter plan plus router annotations; absent
dict keys are none. -/
structure RPlan where
  provider : String
  flow : Option String := none
  series : Option String := none
  dataset : Option String := none
  freq : Option String := none
  indicator : String
  params : List (String × PVal)
  chart_mode : String
  analysis_type : String
  compare_mode : Option String := none
  countries : Option (List String) := none
deriving DecidableEq

/-- The _default_plan dict of llm_router.py. -/
def default_plan (chart_mode analysis_type : String) : RPlan :=
  { provider := "ECB", flow := some "ICP",
    series := some "M.U2.N.000000.4.ANR", freq := some "M",
    indicator := "Inflation (Euro area, default)",
    params := [("lastNObservations", PVal.num 12)],
    chart_mode := chart_mode, analysis_type := analysis_type,
    compare_mode := some "none" }

/-- parse_message_to_query of llm_router.py.  The try/except around the
interpreter maps a raised exception (Except.error) to the step-4 default
plan; interpret always yields a single dict, so the list branch of the
source is unreachable and not modelled. -/
def parse_message_to_query (llmCat : Option String) (today : Int) (fmtYM : Int → String)
    (userText : String) : RPlan :=
  if pyStrip userText = "" then default_plan "single" "neutral"
  else
    let text := pyStrip userText
    let cm := detect_chart_mode text
    let an := detect_analysis_type text
    let countries := detect_countries_in_text text
    let multi := countries.length > 1
    match AiParser.interpret llmCat today fmtYM text with
    | Except.ok p =>
      { provider := p.provider, flow := p.flow, series := p.series,
        dataset := p.dataset, freq := p.freq, indicator := p.indicator,
        params := p.params, chart_mode := cm, analysis_type := an,
        compare_mode := if multi then some "multi-country" else none,
        countries := if multi then some countries else none }
    | Except.error _ => default_plan cm an

end LlmRouter

-- =====================================================================
-- modules/fetchers/ecb_adapter.py
-- =====================================================================

namespace EcbAdapter

/-- One row of the parsed CSV response (cells as read by pd.read_csv). -/
structure CsvRow where
  tp : String
  ov : String
  key : String
deriving DecidableEq

/-- The upstream HTTP response, with the CSV body already tabulated:
which of the relevant columns are present, and the rows. -/
structure CsvResp where
  status : Nat
  hasTimePeriod : Bool
  hasObsValue : Bool
  hasKey : Bool
  rows : List CsvRow
deriving DecidableEq

/-- A normalized output row; none models a NaN / NaT cell. -/
structure NRow where
  time : Option Date
  value : Option Value
  country : Option String
deriving DecidableEq

/-- pandas .str.split on dot .str[2] applied to an astype(str) cell. -/
def keyCountry (k : String) : Option String := (pySplit k '.').get? 2

/-- fetch_ecb_data of fetchers/ecb_adapter.py.  A non-200 status raises
(Except.error); missing TIME_PERIOD / OBS_VALUE columns return an empty
table; the COUNTRY column comes from the KEY column when present, else
from the requested series key; rows failing to_datetime or to_numeric are
dropped, and the result is sorted by time. -/
def fetch_ecb_data (flow key : String) (_params : List (String × PVal))
    (pdDate : String → Option Date) (pdNum : String → Option Value)
    (resp : CsvResp) : Except String (List NRow) :=
  if resp.status ≠ 200 then Except.error ("ECB API error: " ++ toString resp.status)
  else if !(resp.hasTimePeriod && resp.hasObsValue) then Except.ok []
  else
    let withCountry : List NRow :=
      if resp.hasKey then
        resp.rows.map (fun r => { time := pdDate r.tp, value := pdNum r.ov, country := keyCountry r.key })
      else
        match (pySplit key '.').get? 1 with
        | none => resp.rows.map (fun r => { time := pdDate r.tp, value := pdNum r.ov, country := some "U2" })
        | some mp =>
          if containsS mp "+" then
            (pySplit mp '+').flatMap (fun c =>
              resp.rows.map (fun r => { time := pdDate r.tp, value := pdNum r.ov, country := some c }))
          else
            resp.rows.map (fun r => { time := pdDate r.tp, value := pdNum r.ov, country := some mp })
    Except.ok (sortBy (fun a b => decide (a.time.getD 0 ≤ b.time.getD 0))
      (withCountry.filter (fun r => r.time.isSome && r.value.isSome)))

end EcbAdapter

-- =====================================================================
-- modules/fetchers/eurostat_adapter.py
-- =====================================================================

namespace EurostatAdapter

/-- One JSON-stat dimension category: the index dict (code to position,
in insertion order) and the label dict. -/
structure EuCat where
  index : List (String × Nat)
  label : List (String × String)
deriving DecidableEq

/-- A Eurostat API response; jsonOk is false when the body fails to parse
as JSON, values is the flat observation array (null as none). -/
structure EuResp where
  status : Nat
  jsonOk : Bool
  hasValue : Bool
  dims : List (String × EuCat)
  values : List (Option Value)
deriving DecidableEq

/-- The non-meta dimension names, in declaration order. -/
def dimNames (r : EuResp) : List String :=
  (r.dims.map Prod.fst).filter (fun d => !(d == "id" || d == "size"))

def catOf (r : EuResp) (d : String) : EuCat :=
  (getA r.dims d).getD { index := [], label := [] }

/-- Category codes ordered by their index value (sorted(..., key=kv[1])). -/
def sortedCodes (c : EuCat) : List String :=
  (sortBy (fun a b => decide (a.2 ≤ b.2)) c.index).map Prod.fst

/-- itertools.product: rightmost factor varies fastest. -/
def cart {α : Type} : List (List α) → List (List α)
  | [] => [[]]
  | l :: ls => l.flatMap (fun x => (cart ls).map (fun c => x :: c))

/-- One expanded record: per-dimension code and label cells plus value. -/
structure EuRec where
  codes : List (String × String)
  labels : List (String × String)
  value : Option Value
deriving DecidableEq

/-- _expand_sdmx_json of eurostat_adapter.py: Cartesian product of the
ordered code lists zipped positionally against the flat value array,
stopping when the value array is exhausted; labels default to the code. -/
def expand_sdmx_json (r : EuResp) : List EuRec :=
  let names := dimNames r
  let combos := cart (names.map (fun d => sortedCodes (catOf r d)))
  (combos.zip r.values).map (fun cv =>
    let cells := names.zip cv.1
    { codes := cells,
      labels := cells.map (fun dc => (dc.1, (getA (catOf r dc.1).label dc.2).getD dc.2)),
      value := cv.2 })

/-- json.dumps(qs, sort_keys=True) for a flat string-valued mapping. -/
def jsonDumpsSorted (qs : List (String × String)) : String :=
  let items := sortBy keyLe qs
  "\x7b" ++ String.intercalate ", " (items.map (fun kv => "\"" ++ kv.1 ++ "\": \"" ++ kv.2 ++ "\"")) ++ "\x7d"

/-- _cache_key of eurostat_adapter.py.  The md5 digest is modelled by the
digested string itself: md5 is a fixed deterministic function, so equal
inputs give equal keys, which is all the development relies on. -/
def cache_key (dataset : String) (qs : List (String × String)) : String :=
  dataset ++ jsonDumpsSorted qs

/-- One row of the tidy output table (date, COUNTRY, OBS_VALUE). -/
structure EuRow where
  date : Option Date
  country : String
  value : Option Value
deriving DecidableEq

/-- The on-disk parquet cache: one entry per key. -/
abbrev Cache := List (String × List EuRow)

/-- A performed request: dataset and query-string mapping. -/
abbrev EuReq := String × List (String × String)

/-- The quarter-suffix replacement dict applied with regex=True. -/
def replQ : List Char → List Char
  | '-' :: 'Q' :: '1' :: rest => "-01-01".data ++ replQ rest
  | '-' :: 'Q' :: '2' :: rest => "-04-01".data ++ replQ rest
  | '-' :: 'Q' :: '3' :: rest => "-07-01".data ++ replQ rest
  | '-' :: 'Q' :: '4' :: rest => "-10-01".data ++ replQ rest
  | c :: cs => c :: replQ cs
  | [] => []

def replaceQuarters (s : String) : String := String.mk (replQ s.data)

/-- The query-string built by fetch_eurostat_data: format and language
defaults, the plan params, and a sinceTimePeriod of now minus years_back
unless a time filter is already present. -/
def buildQs (params : List (String × String)) (nowYear yearsBack : Int) : List (String × String) :=
  let qs := pyDictUpdate [("format", "JSON"), ("lang", "EN")] params
  if qs.any (fun p => p.1 == "time") || qs.any (fun p => p.1 == "sinceTimePeriod") then qs
  else pyUpsert qs "sinceTimePeriod" (toString (nowYear - yearsBack))

/-- fetch_eurostat_data of eurostat_adapter.py.  A cache hit returns the
stored table with no request; HTTP or JSON failure yields an empty table;
rows with an unparseable date are dropped (null values are kept); the
column selection raises KeyError when the frame has no geo column (in
particular when the expansion produced no records at all). -/
def fetch_eurostat_data (pdDate : String → Option Date) (oracle : EuReq → EuResp)
    (dataset : String) (params : List (String × String)) (yearsBack nowYear : Int)
    (cache : Cache) : Except String (List EuRow × Cache × List EuReq) :=
  let qs := buildQs params nowYear yearsBack
  let key := cache_key dataset qs
  match getA cache key with
  | some t => Except.ok (t, cache, [])
  | none =>
    let req : EuReq := (dataset, qs)
    let r := oracle req
    if r.status ≠ 200 || !r.jsonOk then Except.ok ([], cache, [req])
    else if !r.hasValue then Except.ok ([], cache, [req])
    else
      let recs := expand_sdmx_json r
      let names := dimNames r
      if recs.isEmpty then Except.error "KeyError: COUNTRY"
      else if !(names.contains "geo") then Except.error "KeyError: COUNTRY"
      else
        let hasTime := names.contains "time"
        let rows := recs.map (fun rec =>
          ({ date := if hasTime then pdDate (replaceQuarters ((getA rec.labels "time").getD "")) else none,
             country := (getA rec.labels "geo").getD "",
             value := rec.value } : EuRow))
        let tidy := sortBy (fun a b => decide (a.date.getD 0 ≤ b.date.getD 0))
          (rows.filter (fun x => x.date.isSome))
        Except.ok (tidy, pyUpsert cache key tidy, [req])

end EurostatAdapter

-- =====================================================================
-- modules/fetchers/ebc_adapter.py
-- =====================================================================

namespace EbcAdapter

/-- A raw DataFrame as produced by ecbdata.get_series or read_csv:
column names and per-row cell association lists. -/
structure RawDf where
  cols : List String
  rows : List (List (String × String))
deriving DecidableEq

/-- A normalized output row (TIME_PERIOD, OBS_VALUE, COUNTRY, FLOW). -/
structure NRow4 where
  time : Option Date
  value : Option Value
  country : String
  flow : String
deriving DecidableEq

/-- Python str.isupper: at least one cased character, no cased lowercase. -/
def pyIsUpper (s : String) : Bool :=
  s.data.any Char.isAlpha && s.data.all (fun c => !c.isAlpha || c.isUpper)

/-- df.columns upper-casing applied to the frame. -/
def upRows (df : RawDf) : RawDf :=
  { cols := df.cols.map pyUpper,
    rows := df.rows.map (fun r => r.map (fun kv => (pyUpper kv.1, kv.2))) }

def cellOf (row : List (String × String)) (c : String) : String := (getA row c).getD ""

/-- _infer_country of ebc_adapter.py; none models the IndexError of
iloc on an empty frame (caught by the caller). -/
def infer_country (df : RawDf) (key : String) : Option String :=
  if df.cols.contains "REF_AREA" then df.rows.head?.map (fun r => cellOf r "REF_AREA")
  else if df.cols.contains "GEO" then df.rows.head?.map (fun r => cellOf r "GEO")
  else if df.cols.contains "COUNTRY" then df.rows.head?.map (fun r => cellOf r "COUNTRY")
  else
    match (pySplit key '.').find? (fun part => part.length == 2 && pyIsUpper part) with
    | some part => some part
    | none => some "U2"

/-- _normalize_ecb_df of ebc_adapter.py: upper-case columns, substring
auto-detection of the time and value columns (ValueError when absent),
scalar COUNTRY and FLOW columns, coercion, dropna, sort. -/
def normalize_ecb_df (pdDate : String → Option Date) (pdNum : String → Option Value)
    (df0 : RawDf) (key flow : String) : Except String (List NRow4) :=
  let df := upRows df0
  let timeCol := df.cols.find? (fun c => containsS c "TIME" || containsS c "PERIOD")
  let valCol := df.cols.find? (fun c => containsS c "OBS" || containsS c "VALUE")
  match timeCol, valCol with
  | some tc, some vc =>
    match infer_country df key with
    | none => Except.error "IndexError: iloc"
    | some country =>
      let rows := df.rows.map (fun r =>
        ({ time := pdDate (cellOf r tc), value := pdNum (cellOf r vc),
           country := country, flow := flow } : NRow4))
      Except.ok (sortBy (fun a b => decide (a.time.getD 0 ≤ b.time.getD 0))
        (rows.filter (fun x => x.time.isSome && x.value.isSome)))
  | _, _ => Except.error "ValueError: Missing TIME or VALUE columns"

/-- The upstream environment of one fetch: the ecbdata.get_series answer
(none when the library call raised) and the REST CSV fallback frame
(_fetch_ecb_csv catches its own errors, so it always yields a frame,
possibly empty). -/
structure Env where
  getSeries : Option RawDf
  restCsv : RawDf
deriving DecidableEq

/-- The per-series disk cache. -/
abbrev Store := List (String × List NRow4)

/-- The cache file name: flow dot key with dots replaced by underscores.
It does not depend on the request params. -/
def cacheName (flow key : String) : String :=
  String.mk (((flow ++ "." ++ key).data.map (fun c => if c == '.' then '_' else c))) ++ ".csv"

/-- fetch_ecb_data of fetchers/ebc_adapter.py.  Returns the table, the
updated store and the names of the network calls performed; a cache hit
returns the stored table with no calls; any exception inside the outer
try (normalization errors included) yields an empty table. -/
def fetch_ecb_data (pdDate : String → Option Date) (pdNum : String → Option Value)
    (env : Env) (flow key : String) (params : List (String × PVal)) (cache : Bool)
    (store : Store) : List NRow4 × Store × List String :=
  let file := cacheName flow key
  match (if cache then getA store file else none) with
  | some df => (df, store, [])
  | none =>
    match env.getSeries with
    | none => ([], store, ["ecbdata"])
    | some raw =>
      let viaRest := raw.rows.isEmpty
      let raw2 := if viaRest then env.restCsv else raw
      let log := if viaRest then ["ecbdata", "rest-csv"] else ["ecbdata"]
      if raw2.rows.isEmpty then ([], store, log)
      else
        match normalize_ecb_df pdDate pdNum raw2 key flow with
        | Except.error _ => ([], store, log)
        | Except.ok df =>
          (df, if cache then pyUpsert store file df else store, log)

end EbcAdapter

-- =====================================================================
-- The fetchers inside modules/ai_parser.py
-- =====================================================================

namespace AiParser

/-- The parts of an SDMX-JSON body read by _parse_sdmx_json: the first
series' observation values (none when there is no series to take) and
the observation time dimension ids. -/
structure SdmxBody where
  firstSeriesObs : Option (List (Option Value))
  times : List String
deriving DecidableEq

/-- Response of the sdmx-json request; body none when r.json() raises. -/
structure JsonResp where
  status : Nat
  body : Option SdmxBody
deriving DecidableEq

/-- Response of the csvdata request: whether some line contains
OBS_VALUE, and the (time, value) cells of the parsed remainder. -/
structure CsvResp where
  status : Nat
  hasObsLine : Bool
  rows : List (String × String)
deriving DecidableEq

/-- A (time, value) row of the small ECB frame. -/
structure TV where
  time : Option Date
  value : Option Value
deriving DecidableEq

/-- _parse_sdmx_json of ai_parser.py: observations zipped positionally
against the time ids, coerced, dropna, sorted; none when the walk into
the body raises (caught by the caller). -/
def parse_sdmx_json (pdDate : String → Option Date) (b : SdmxBody) : Option (List TV) :=
  match b.firstSeriesObs with
  | none => none
  | some obs =>
    let rows := (b.times.zip obs).map (fun tv => ({ time := pdDate tv.1, value := tv.2 } : TV))
    some (sortBy (fun a b => decide (a.time.getD 0 ≤ b.time.getD 0))
      (rows.filter (fun x => x.time.isSome && x.value.isSome)))

/-- fetch_ecb of ai_parser.py: sdmx-json first, csvdata on non-200; both
non-200 give an empty frame; a 200 JSON body that fails to parse gives an
empty frame (wrapped in try); a 200 CSV body with no OBS_VALUE line
raises StopIteration (the CSV parse is not wrapped). -/
def fetch_ecb (pdDate : String → Option Date) (pdNum : String → Option Value)
    (rJson : JsonResp) (rCsv : CsvResp) (flow key : String) : Except String (List TV) :=
  if rJson.status ≠ 200 then
    if rCsv.status ≠ 200 then Except.ok []
    else if !rCsv.hasObsLine then Except.error "StopIteration"
    else
      Except.ok ((rCsv.rows.map (fun tv => ({ time := pdDate tv.1, value := pdNum tv.2 } : TV))).filter
        (fun x => x.time.isSome && x.value.isSome))
  else
    match rJson.body with
    | none => Except.ok []
    | some b =>
      match parse_sdmx_json pdDate b with
      | none => Except.ok []
      | some df => Except.ok df

/-- One row of the eurostat_fetch frame: the per-dimension label cells,
the value, and the parsed date column. -/
structure AiEuRow where
  labels : List (String × String)
  value : Option Value
  date : Option Date
deriving DecidableEq

/-- The time column eurostat_fetch ends up using: the time label column
when present, else the TIME_PERIOD rename target. -/
def timeColName (names : List String) : String :=
  if names.contains "time" then "time" else "TIME_PERIOD"

/-- eurostat_fetch of ai_parser.py: builds one request (format, lang,
geo, then the plan params), returns an empty frame on non-200 or missing
value key, raises on a non-JSON 200 body (r.json() is not wrapped) and on
a label dict miss; expands with insertion-order category codes; rows with
an unparseable date are dropped. -/
def eurostat_fetch (pdDate : String → Option Date)
    (oracle : EurostatAdapter.EuReq → EurostatAdapter.EuResp)
    (dataset : String) (params : List (String × String)) (geo : String) :
    Except String (List AiEuRow × List EurostatAdapter.EuReq) :=
  let qs := pyDictUpdate [("format", "JSON"), ("lang", "EN"), ("geo", geo)] params
  let req : EurostatAdapter.EuReq := (dataset, qs)
  let r := oracle req
  if r.status ≠ 200 then Except.ok ([], [req])
  else if !r.jsonOk then Except.error "JSONDecodeError"
  else if !r.hasValue then Except.ok ([], [req])
  else
    let names := EurostatAdapter.dimNames r
    let combos := EurostatAdapter.cart (names.map (fun d => (EurostatAdapter.catOf r d).index.map Prod.fst))
    let pairs := combos.zip r.values
    if pairs.any (fun cv => (names.zip cv.1).any (fun dc => (getA (EurostatAdapter.catOf r dc.1).label dc.2).isNone)) then
      Except.error "KeyError: label"
    else
      let recs := pairs.map (fun cv =>
        ({ labels := (names.zip cv.1).map (fun dc => (dc.1, (getA (EurostatAdapter.catOf r dc.1).label dc.2).getD dc.2)),
           value := cv.2, date := none } : AiEuRow))
      if recs.isEmpty then Except.error "KeyError: time"
      else
        if !(names.contains (timeColName names)) then Except.error "KeyError: time"
        else
          let rows := recs.map (fun rec =>
            { rec with date := pdDate (EurostatAdapter.replaceQuarters ((getA rec.labels (timeColName names)).getD "")) })
          Except.ok (sortBy (fun a b => decide (a.date.getD 0 ≤ b.date.getD 0))
            (rows.filter (fun x => x.date.isSome)), [req])

end AiParser

-- =====================================================================
-- Concrete test environments (instantiations of the ambient parameters:
-- parse outcomes and upstream responses) used by witnesses and
-- counterexamples
-- =====================================================================

/-- A date parser recognizing the few cells the test responses use. -/
def tstDate (s : String) : Option Date :=
  if s = "2020" then some 0
  else if s = "2020-01" then some 100
  else if s = "1999-01" then some 50
  else none

/-- A numeric parser recognizing the few cells the test responses use. -/
def tstNum (s : String) : Option Value :=
  if s = "1.5" then some ((3 : Value) / 2)
  else if s = "9.9" then some ((99 : Value) / 10)
  else none

/-- A Eurostat response that carries one observation under the older
euro-area aggregate code EA19. -/
def ea19Resp : EurostatAdapter.EuResp :=
  { status := 200, jsonOk := true, hasValue := true,
    dims := [("geo", { index := [("EA19", 0)], label := [("EA19", "Euro area - 19 countries")] }),
             ("time", { index := [("2020", 0)], label := [("2020", "2020")] })],
    values := [some 5] }

/-- An upstream failure response. -/
def notFoundResp : EurostatAdapter.EuResp :=
  { status := 400, jsonOk := false, hasValue := false, dims := [], values := [] }

/-- A 200 response whose body is not JSON (malformed payload). -/
def badJsonResp : EurostatAdapter.EuResp :=
  { status := 200, jsonOk := false, hasValue := false, dims := [], values := [] }

/-- An upstream that serves data only under the geo code EA19 (the
dataset that answers only to an older aggregate code). -/
def ea19OnlyOracle : EurostatAdapter.EuReq → EurostatAdapter.EuResp :=
  fun req => if getA req.2 "geo" = some "EA19" then ea19Resp else notFoundResp

/-- A Eurostat response whose flat value array contains a null. -/
def nullValueResp : EurostatAdapter.EuResp :=
  { status := 200, jsonOk := true, hasValue := true,
    dims := [("geo", { index := [("EA19", 0)], label := [("EA19", "Euro area - 19 countries")] }),
             ("time", { index := [("2020", 0)], label := [("2020", "2020")] })],
    values := [none] }

/-- A well-formed ECB frame with one observation. -/
def rawIcp : EbcAdapter.RawDf :=
  { cols := ["TIME_PERIOD", "OBS_VALUE"],
    rows := [[("TIME_PERIOD", "2020-01"), ("OBS_VALUE", "1.5")]] }

/-- A different well-formed ECB frame (what the upstream would serve for
a different parameter window). -/
def raw99 : EbcAdapter.RawDf :=
  { cols := ["TIME_PERIOD", "OBS_VALUE"],
    rows := [[("TIME_PERIOD", "1999-01"), ("OBS_VALUE", "9.9")]] }

def emptyRaw : EbcAdapter.RawDf := { cols := [], rows := [] }

def envIcp : EbcAdapter.Env := { getSeries := some rawIcp, restCsv := emptyRaw }

def env99 : EbcAdapter.Env := { getSeries := some raw99, restCsv := emptyRaw }

/-- The table the ICP test frame normalizes to. -/
def tblIcp : List EbcAdapter.NRow4 :=
  [{ time := some 100, value := some ((3 : Value) / 2), country := "U2", flow := "ICP" }]

-- =====================================================================
-- General lemmas about the helper functions
-- =====================================================================

theorem mem_insBy {α : Type} (le : α → α → Bool) (x a : α) (l : List α) :
    a ∈ insBy le x l ↔ a = x ∨ a ∈ l := by
  induction l with
  | nil => simp [insBy]
  | cons y ys ih =>
    simp only [insBy]
    split
    · simp [List.mem_cons]
    · simp only [List.mem_cons, ih]
      tauto

theorem mem_sortBy {α : Type} (le : α → α → Bool) (a : α) (l : List α) :
    a ∈ sortBy le l ↔ a ∈ l := by
  induction l with
  | nil => simp [sortBy]
  | cons x xs ih => simp [sortBy, mem_insBy, ih]

theorem getA_mem {α : Type} : ∀ (l : List (String × α)) (k : String) (v : α),
    getA l k = some v → (k, v) ∈ l := by
  intro l
  induction l with
  | nil => intro k v h; simp [getA] at h
  | cons p t ih =>
    intro k v h
    obtain ⟨k', v'⟩ := p
    simp only [getA] at h
    split at h
    · next hk =>
      cases h
      have : k' = k := by simpa using hk
      subst this
      exact List.mem_cons_self _ _
    · exact List.mem_cons_of_mem _ (ih k v h)

theorem pyUpsert_ne_nil {α : Type} (l : List (String × α)) (k : String) (v : α) :
    pyUpsert l k v ≠ [] := by
  unfold pyUpsert
  split
  · next h =>
    cases l with
    | nil => simp at h
    | cons p t => simp
  · simp

theorem detect_period_ne_nil (today : Int) (fmtYM : Int → String) (text : String) :
    AiParser.detect_period today fmtYM text ≠ [] := by
  unfold AiParser.detect_period
  dsimp only
  split
  · simp
  · split
    · simp
    · split <;> simp

-- =====================================================================
-- Claim theorems
-- =====================================================================

/-- Claim C7: for every input text containing an explicit since-YYYY
phrase, detect_period returns startPeriod YYYY-01 regardless of any other
period phrases present, because the since branch is checked first. -/
theorem c7_since_priority (today : Int) (fmtYM : Int → String) (text : String) (y : String)
    (h : AiParser.findSince (lc text) = some y) :
    AiParser.detect_period today fmtYM text = [("startPeriod", PVal.s (y ++ "-01"))] := by
  unfold AiParser.detect_period
  dsimp only
  rw [h]

/-- Witness for C7 at a text that also contains a last-N-years phrase. -/
theorem c7_since_priority_witness :
    AiParser.findSince (lc "Unemployment since 2015 last 3 years") = some "2015" ∧
    AiParser.detect_period 0 (fun n => toString n) "Unemployment since 2015 last 3 years" =
      [("startPeriod", PVal.s "2015-01")] :=
  ⟨rfl, c7_since_priority 0 (fun n => toString n) "Unemployment since 2015 last 3 years" "2015" rfl⟩

/-- str.format on the fx label template: substitution at the end of the
template normalizes the trailing append. -/
theorem formatPair_label_eq (code : String) :
    AiParser.formatPair "Exchange rate EUR/{pair}" code = "Exchange rate EUR/" ++ code := by
  have h : AiParser.fmtPairAux code.data "Exchange rate EUR/{pair}".data
      = "Exchange rate EUR/".data ++ (code.data ++ []) := rfl
  show String.mk (AiParser.fmtPairAux code.data "Exchange rate EUR/{pair}".data) = _
  rw [h, List.append_nil]
  rfl

/-- Claim C6: for every text the fx-alias loop matches, interpret returns
the ECB exchange-rate plan with the matched currency code substituted into
the series key and the label, and the period params attached. -/
theorem c6_fx_plan (llmCat : Option String) (today : Int) (fmtYM : Int → String)
    (text : String) (als code : String)
    (h : AiParser.fxFirst (pyLower text).data = some (als, code)) :
    AiParser.interpret llmCat today fmtYM text =
      Except.ok { provider := "ECB", flow := some "EXR",
                  series := some ("D." ++ code ++ ".EUR.SP00.A"),
                  freq := some "D",
                  indicator := "Exchange rate EUR/" ++ code,
                  params := AiParser.detect_period today fmtYM (pyLower text) } := by
  unfold AiParser.interpret
  dsimp only
  rw [h, ← formatPair_label_eq code]
  rfl

/-- Witness for C6 at the spec's own example, euro dollar: the series key
contains .USD.EUR and the label contains USD. -/
theorem c6_fx_plan_witness :
    AiParser.fxFirst (pyLower "Exchange rate euro dollar").data = some ("dollar", "USD") ∧
    AiParser.interpret none 0 (fun _ => "2020-10") "Exchange rate euro dollar" =
      Except.ok { provider := "ECB", flow := some "EXR",
                  series := some "D.USD.EUR.SP00.A", freq := some "D",
                  indicator := "Exchange rate EUR/USD",
                  params := [("startPeriod", PVal.s "2020-10")] } ∧
    containsS "D.USD.EUR.SP00.A" ".USD.EUR" = true ∧
    containsS "Exchange rate EUR/USD" "USD" = true :=
  ⟨rfl, c6_fx_plan none 0 (fun _ => "2020-10") "Exchange rate euro dollar" "dollar" "USD" rfl,
   rfl, rfl⟩

/-- Claim C9: the router annotations on Compare unemployment between
France and Italy: compare chart mode, comparison analysis type,
multi-country compare mode, and exactly the countries italy and france
(the model returns them in scan order; Python materializes the same two
names through list(set(..))). -/
theorem c9_router_annotations :
    (LlmRouter.parse_message_to_query none 0 (fun _ => "")
        "Compare unemployment between France and Italy").chart_mode = "compare" ∧
    (LlmRouter.parse_message_to_query none 0 (fun _ => "")
        "Compare unemployment between France and Italy").analysis_type = "comparison" ∧
    (LlmRouter.parse_message_to_query none 0 (fun _ => "")
        "Compare unemployment between France and Italy").compare_mode = some "multi-country" ∧
    (LlmRouter.parse_message_to_query none 0 (fun _ => "")
        "Compare unemployment between France and Italy").countries = some ["italy", "france"] :=
  ⟨rfl, rfl, rfl, rfl⟩

/-- Counterexample to C3 as stated: the Interpreter itself raises for the
input currency (the exchange_rate synonym resolves to a catalog entry
with no series key, a KeyError); no exception is caught inside it. -/
theorem c3_counterexample :
    AiParser.interpret none 0 (fun _ => "2020-10") "currency" = Except.error "KeyError: series" := rfl

/-- Claim C3 (amended): it is the Router, not the Interpreter, that
converts an interpreter exception into the fallback: whenever interpret
raises, parse_message_to_query returns the default plan annotated with
the chart mode and analysis type computed from the text. -/
theorem c3_router_recovers (llmCat : Option String) (today : Int) (fmtYM : Int → String)
    (text : String) (e : String)
    (h : AiParser.interpret llmCat today fmtYM (pyStrip text) = Except.error e) :
    LlmRouter.parse_message_to_query llmCat today fmtYM text =
      LlmRouter.default_plan (LlmRouter.detect_chart_mode (pyStrip text))
        (LlmRouter.detect_analysis_type (pyStrip text)) := by
  unfold LlmRouter.parse_message_to_query
  by_cases he : pyStrip text = ""
  · rw [if_pos he, he]
    rfl
  · rw [if_neg he]
    dsimp only
    rw [h]

/-- Witness for C3's amended theorem at the input currency. -/
theorem c3_router_recovers_witness :
    AiParser.interpret none 0 (fun _ => "2020-10") (pyStrip "currency") = Except.error "KeyError: series" ∧
    LlmRouter.parse_message_to_query none 0 (fun _ => "2020-10") "currency" =
      LlmRouter.default_plan "single" "neutral" :=
  ⟨rfl, c3_router_recovers none 0 (fun _ => "2020-10") "currency" "KeyError: series" rfl⟩

/-- str.format on the fx series template. -/
theorem formatPair_series_eq (code : String) :
    AiParser.formatPair "D.{pair}.EUR.SP00.A" code = "D." ++ code ++ ".EUR.SP00.A" := rfl

/-- Counterexample to C10 as stated: the text euro sek euro krone matches
the euro-krone fx regex, yet interpret returns the SEK plan, because the
sek alias is tried before krone in table order. -/
theorem c10_counterexample :
    AiParser.fxSearch "krone".data (pyLower "euro sek euro krone").data = true ∧
    AiParser.interpret none 0 (fun _ => "2020-10") "euro sek euro krone" =
      Except.ok { provider := "ECB", flow := some "EXR",
                  series := some "D.SEK.EUR.SP00.A", freq := some "D",
                  indicator := "Exchange rate EUR/SEK",
                  params := [("startPeriod", PVal.s "2020-10")] } :=
  ⟨rfl, rfl⟩

/-- Claim C10 (amended): in the dict the fx_aliases literal evaluates to,
the duplicate key krone is bound to NOK (the last binding wins), so any
first-match on the krone alias yields NOK, and a returned SEK plan is
only possible when the sek alias regex itself matches the text. -/
theorem c10_krone_nok :
    getA AiParser.fx_aliases "krone" = some "NOK" ∧
    (∀ (text als code : String),
      AiParser.fxFirst (pyLower text).data = some (als, code) → als = "krone" → code = "NOK") ∧
    (∀ (llmCat : Option String) (today : Int) (fmtYM : Int → String) (text : String) (p : AiParser.Plan),
      AiParser.interpret llmCat today fmtYM text = Except.ok p →
      p.series = some "D.SEK.EUR.SP00.A" →
      AiParser.fxSearch "sek".data (pyLower text).data = true) := by
  refine ⟨rfl, ?_, ?_⟩
  · intro text als code h hals
    have hmem := List.mem_of_find?_eq_some h
    have hall : ∀ p ∈ AiParser.fx_aliases, p.1 = "krone" → p.2 = "NOK" := by decide
    exact hall _ hmem hals
  · intro llmCat today fmtYM text p h hs
    unfold AiParser.interpret at h
    dsimp only at h
    cases hfx : AiParser.fxFirst (pyLower text).data with
    | some ac =>
      rw [hfx] at h
      dsimp only at h
      have hfx2 : AiParser.fx_aliases.find?
          (fun q => AiParser.fxSearch q.1.data (pyLower text).data) = some ac := hfx
      have hsearch0 := List.find?_some hfx2
      have hsearch : AiParser.fxSearch ac.1.data (pyLower text).data = true := hsearch0
      have hmem : ac ∈ AiParser.fx_aliases := List.mem_of_find?_eq_some hfx2
      injection h with h
      subst h
      simp only [Option.some.injEq] at hs
      have hsek : ∀ q ∈ AiParser.fx_aliases,
          AiParser.formatPair "D.{pair}.EUR.SP00.A" q.2 = "D.SEK.EUR.SP00.A" → q.1 = "sek" := by
        decide
      have : ac.1 = "sek" := hsek _ hmem hs
      rw [← this]
      exact hsearch
    | none =>
      rw [hfx] at h
      dsimp only at h
      split at h
      · exact absurd h (by simp)
      · next key hkey =>
        cases hcat : getA AiParser.INDICATOR_CATALOG key with
        | none => rw [hcat] at h; exact absurd h (by simp)
        | some meta =>
          rw [hcat] at h
          dsimp only at h
          have hmem := getA_mem _ _ _ hcat
          by_cases hecb : (meta.provider == "ECB") = true
          · rw [if_pos hecb] at h
            split at h
            · next fl se fr hfl hse hfr =>
              injection h with h
              subst h
              simp only [Option.some.injEq] at hs
              have hser : ∀ q ∈ AiParser.INDICATOR_CATALOG,
                  q.2.series ≠ some "D.SEK.EUR.SP00.A" := by decide
              exact absurd (hse ▸ (hs ▸ rfl) : meta.series = some "D.SEK.EUR.SP00.A") (hser _ hmem)
            · exact absurd h (by simp)
          · rw [if_neg hecb] at h
            by_cases heur : (meta.provider == "Eurostat") = true
            · rw [if_pos heur] at h
              split at h
              · next ds ps hds hps =>
                injection h with h
                subst h
                exact absurd hs (by simp)
              · exact absurd h (by simp)
            · rw [if_neg heur] at h
              injection h with h
              subst h
              exact absurd hs (by simp)

/-- Witness for C10's amended theorem: euro krone alone resolves through
the krone alias to the NOK plan, and a SEK result implies the sek alias
matched, exercised at the input euro sek. -/
theorem c10_krone_nok_witness :
    AiParser.fxFirst (pyLower "euro krone").data = some ("krone", "NOK") ∧
    ("NOK" : String) = "NOK" ∧
    AiParser.interpret none 0 (fun _ => "2020-10") "euro sek" =
      Except.ok { provider := "ECB", flow := some "EXR",
                  series := some "D.SEK.EUR.SP00.A", freq := some "D",
                  indicator := "Exchange rate EUR/SEK",
                  params := [("startPeriod", PVal.s "2020-10")] } ∧
    AiParser.fxSearch "sek".data (pyLower "euro sek").data = true :=
  ⟨rfl, c10_krone_nok.2.1 "euro krone" "krone" "NOK" rfl rfl,
   rfl, c10_krone_nok.2.2 none 0 (fun _ => "2020-10") "euro sek" _ rfl rfl⟩

/-- A nonempty string append is nonempty. -/
theorem label_append_ne_empty (code : String) : "Exchange rate EUR/" ++ code ≠ "" := by
  intro h
  have hd := congrArg String.data h
  simp [String.data_append] at hd

/-- Claim C8: every plan the Interpreter returns (fx branch, catalog
branches, the trailing default) and the Router's fallback plan have
non-empty provider, indicator and params. -/
theorem c8_plan_fields :
    (∀ (llmCat : Option String) (today : Int) (fmtYM : Int → String) (text : String) (p : AiParser.Plan),
      AiParser.interpret llmCat today fmtYM text = Except.ok p →
      p.provider ≠ "" ∧ p.indicator ≠ "" ∧ p.params ≠ []) ∧
    (∀ cm an : String, (LlmRouter.default_plan cm an).provider ≠ "" ∧
      (LlmRouter.default_plan cm an).indicator ≠ "" ∧ (LlmRouter.default_plan cm an).params ≠ []) := by
  constructor
  · intro llmCat today fmtYM text p h
    unfold AiParser.interpret at h
    dsimp only at h
    cases hfx : AiParser.fxFirst (pyLower text).data with
    | some ac =>
      rw [hfx] at h
      dsimp only at h
      injection h with h
      subst h
      refine ⟨show ("ECB" : String) ≠ "" by decide, ?_, detect_period_ne_nil today fmtYM (pyLower text)⟩
      show AiParser.formatPair "Exchange rate EUR/{pair}" ac.2 ≠ ""
      rw [formatPair_label_eq]
      exact label_append_ne_empty ac.2
    | none =>
      rw [hfx] at h
      dsimp only at h
      split at h
      · exact absurd h (by simp)
      · next key hkey =>
        cases hcat : getA AiParser.INDICATOR_CATALOG key with
        | none => rw [hcat] at h; exact absurd h (by simp)
        | some meta =>
          rw [hcat] at h
          dsimp only at h
          have hmem := getA_mem _ _ _ hcat
          have hlab : ∀ q ∈ AiParser.INDICATOR_CATALOG, q.2.label ≠ "" := by decide
          by_cases hecb : (meta.provider == "ECB") = true
          · rw [if_pos hecb] at h
            split at h
            · next fl se fr hfl hse hfr =>
              injection h with h
              subst h
              exact ⟨show ("ECB" : String) ≠ "" by decide, hlab _ hmem,
                detect_period_ne_nil today fmtYM (pyLower text)⟩
            · exact absurd h (by simp)
          · rw [if_neg hecb] at h
            by_cases heur : (meta.provider == "Eurostat") = true
            · rw [if_pos heur] at h
              split at h
              · next ds ps hds hps =>
                injection h with h
                subst h
                exact ⟨show ("Eurostat" : String) ≠ "" by decide, hlab _ hmem,
                  pyUpsert_ne_nil _ _ _⟩
              · exact absurd h (by simp)
            · rw [if_neg heur] at h
              injection h with h
              subst h
              exact ⟨show ("ECB" : String) ≠ "" by decide,
                show ("Inflation (Euro area, default)" : String) ≠ "" by decide,
                detect_period_ne_nil today fmtYM (pyLower text)⟩
  · intro cm an
    refine ⟨show ("ECB" : String) ≠ "" by decide,
      show ("Inflation (Euro area, default)" : String) ≠ "" by decide,
      by simp [LlmRouter.default_plan]⟩

/-- Witness for C8 at the input unemployment italy (a Eurostat plan). -/
theorem c8_plan_fields_witness :
    AiParser.interpret none 0 (fun _ => "2020-10") "unemployment italy" =
      Except.ok { provider := "Eurostat", dataset := some "une_rt_m",
                  indicator := "Unemployment rate",
                  params := [("sex", PVal.s "T"), ("age", PVal.s "Y25-74"),
                             ("unit", PVal.s "PC_ACT"), ("s_adj", PVal.s "SA"),
                             ("geo", PVal.s "IT")] } ∧
    ("Eurostat" : String) ≠ "" ∧ ("Unemployment rate" : String) ≠ "" ∧
    ([("sex", PVal.s "T"), ("age", PVal.s "Y25-74"), ("unit", PVal.s "PC_ACT"),
      ("s_adj", PVal.s "SA"), ("geo", PVal.s "IT")] : List (String × PVal)) ≠ [] := by
  refine ⟨rfl, ?_⟩
  have hp := c8_plan_fields.1 none 0 (fun _ => "2020-10") "unemployment italy"
    { provider := "Eurostat", dataset := some "une_rt_m",
      indicator := "Unemployment rate",
      params := [("sex", PVal.s "T"), ("age", PVal.s "Y25-74"),
                 ("unit", PVal.s "PC_ACT"), ("s_adj", PVal.s "SA"),
                 ("geo", PVal.s "IT")] } rfl
  exact hp

/-- Counterexample to C2 as stated: an ordinary upstream failure, a 503
on the ECB endpoint, makes fetch_ecb_data of ecb_adapter.py raise an
exception instead of returning an empty table. -/
theorem c2_counterexample :
    EcbAdapter.fetch_ecb_data "ICP" "M.U2.N.000000.4.ANR" []
      (fun _ => none) (fun _ => none)
      { status := 503, hasTimePeriod := true, hasObsValue := true, hasKey := false, rows := [] } =
      Except.error "ECB API error: 503" := rfl

/-- Claim C2 (amended): upstream failures are not uniformly swallowed.
The ecb_adapter fetcher raises on every non-200 status; the ai_parser ECB
fetcher returns an empty table when both format attempts are non-200 and
when the 200 JSON body fails to parse; the Eurostat adapter returns an
empty table (after a single request) both on a non-200 status and on a
200 response whose body is not JSON (malformed payload). -/
theorem c2_failure_modes :
    (∀ (flow key : String) (params : List (String × PVal))
       (pdDate : String → Option Date) (pdNum : String → Option Value)
       (resp : EcbAdapter.CsvResp), resp.status ≠ 200 →
       EcbAdapter.fetch_ecb_data flow key params pdDate pdNum resp =
         Except.error ("ECB API error: " ++ toString resp.status)) ∧
    (∀ (pdDate : String → Option Date) (pdNum : String → Option Value)
       (rJson : AiParser.JsonResp) (rCsv : AiParser.CsvResp) (flow key : String),
       rJson.status ≠ 200 → rCsv.status ≠ 200 →
       AiParser.fetch_ecb pdDate pdNum rJson rCsv flow key = Except.ok []) ∧
    (∀ (pdDate : String → Option Date) (pdNum : String → Option Value)
       (rCsv : AiParser.CsvResp) (flow key : String),
       AiParser.fetch_ecb pdDate pdNum { status := 200, body := none } rCsv flow key =
         Except.ok []) ∧
    (∀ (pdDate : String → Option Date) (oracle : EurostatAdapter.EuReq → EurostatAdapter.EuResp)
       (dataset : String) (params : List (String × String)) (yearsBack nowYear : Int)
       (cache : EurostatAdapter.Cache),
       getA cache (EurostatAdapter.cache_key dataset
         (EurostatAdapter.buildQs params nowYear yearsBack)) = none →
       (oracle (dataset, EurostatAdapter.buildQs params nowYear yearsBack)).status ≠ 200 →
       EurostatAdapter.fetch_eurostat_data pdDate oracle dataset params yearsBack nowYear cache =
         Except.ok ([], cache, [(dataset, EurostatAdapter.buildQs params nowYear yearsBack)])) ∧
    (∀ (pdDate : String → Option Date) (oracle : EurostatAdapter.EuReq → EurostatAdapter.EuResp)
       (dataset : String) (params : List (String × String)) (yearsBack nowYear : Int)
       (cache : EurostatAdapter.Cache),
       getA cache (EurostatAdapter.cache_key dataset
         (EurostatAdapter.buildQs params nowYear yearsBack)) = none →
       (oracle (dataset, EurostatAdapter.buildQs params nowYear yearsBack)).jsonOk = false →
       EurostatAdapter.fetch_eurostat_data pdDate oracle dataset params yearsBack nowYear cache =
         Except.ok ([], cache, [(dataset, EurostatAdapter.buildQs params nowYear yearsBack)])) := by
  refine ⟨?_, ?_, ?_, ?_, ?_⟩
  · intro flow key params pdDate pdNum resp h
    unfold EcbAdapter.fetch_ecb_data
    rw [if_pos h]
  · intro pdDate pdNum rJson rCsv flow key h1 h2
    unfold AiParser.fetch_ecb
    rw [if_pos h1, if_pos h2]
  · intro pdDate pdNum rCsv flow key
    unfold AiParser.fetch_ecb
    rw [if_neg (by simp)]
  · intro pdDate oracle dataset params yearsBack nowYear cache h1 h2
    unfold EurostatAdapter.fetch_eurostat_data
    dsimp only
    rw [h1]
    rw [if_pos (by simp [h2])]
  · intro pdDate oracle dataset params yearsBack nowYear cache h1 h2
    unfold EurostatAdapter.fetch_eurostat_data
    dsimp only
    rw [h1]
    rw [if_pos (by simp [h2])]

/-- Witness for C2's amended theorem at concrete failing responses. -/
theorem c2_failure_modes_witness :
    EcbAdapter.fetch_ecb_data "ICP" "M.U2.N.000000.4.ANR" [] tstDate tstNum
      { status := 404, hasTimePeriod := true, hasObsValue := true, hasKey := false, rows := [] } =
      Except.error "ECB API error: 404" ∧
    AiParser.fetch_ecb tstDate tstNum { status := 500, body := none }
      { status := 500, hasObsLine := false, rows := [] } "ICP" "M.U2.N.000000.4.ANR" =
      Except.ok [] ∧
    AiParser.fetch_ecb tstDate tstNum { status := 200, body := none }
      { status := 200, hasObsLine := true, rows := [] } "ICP" "M.U2.N.000000.4.ANR" =
      Except.ok [] ∧
    EurostatAdapter.fetch_eurostat_data tstDate (fun _ => notFoundResp) "une_rt_m" [] 5 2025 [] =
      Except.ok ([], [], [("une_rt_m", EurostatAdapter.buildQs [] 2025 5)]) ∧
    EurostatAdapter.fetch_eurostat_data tstDate (fun _ => badJsonResp) "une_rt_m" [] 5 2025 [] =
      Except.ok ([], [], [("une_rt_m", EurostatAdapter.buildQs [] 2025 5)]) :=
  ⟨c2_failure_modes.1 "ICP" "M.U2.N.000000.4.ANR" [] tstDate tstNum
      { status := 404, hasTimePeriod := true, hasObsValue := true, hasKey := false, rows := [] }
      (by decide),
   c2_failure_modes.2.1 tstDate tstNum { status := 500, body := none }
      { status := 500, hasObsLine := false, rows := [] } "ICP" "M.U2.N.000000.4.ANR"
      (by decide) (by decide),
   c2_failure_modes.2.2.1 tstDate tstNum
      { status := 200, hasObsLine := true, rows := [] } "ICP" "M.U2.N.000000.4.ANR",
   c2_failure_modes.2.2.2.1 tstDate (fun _ => notFoundResp) "une_rt_m" [] 5 2025 []
      rfl (by decide),
   c2_failure_modes.2.2.2.2 tstDate (fun _ => badJsonResp) "une_rt_m" [] 5 2025 []
      rfl rfl⟩

/-- Counterexample to C1 as stated: the Eurostat adapter drops rows only
on an unparseable date, so an upstream null observation value survives
into the returned table: the returned row has no numeric value. -/
theorem c1_counterexample :
    EurostatAdapter.fetch_eurostat_data tstDate (fun _ => nullValueResp)
      "une_rt_m" [("geo", "EA19")] 5 2025 [] =
      Except.ok
        ([{ date := some 0, country := "Euro area - 19 countries", value := none }],
         [(EurostatAdapter.cache_key "une_rt_m"
             (EurostatAdapter.buildQs [("geo", "EA19")] 2025 5),
           [{ date := some 0, country := "Euro area - 19 countries", value := none }])],
         [("une_rt_m", EurostatAdapter.buildQs [("geo", "EA19")] 2025 5)]) ∧
    ({ date := some 0, country := "Euro area - 19 countries",
       value := none } : EurostatAdapter.EuRow).value.isSome = false :=
  ⟨rfl, rfl⟩

/-- Claim C1 (amended): every row of a table returned by the ECB adapter
has a parseable time and a numeric value (rows failing either coercion
are dropped); every row of a table returned by the Eurostat adapter (from
a cold cache) has a parseable date, but its value is not filtered. -/
theorem c1_clean_rows :
    (∀ (flow key : String) (params : List (String × PVal))
       (pdDate : String → Option Date) (pdNum : String → Option Value)
       (resp : EcbAdapter.CsvResp) (rows : List EcbAdapter.NRow),
       EcbAdapter.fetch_ecb_data flow key params pdDate pdNum resp = Except.ok rows →
       ∀ r ∈ rows, r.time.isSome = true ∧ r.value.isSome = true) ∧
    (∀ (pdDate : String → Option Date) (oracle : EurostatAdapter.EuReq → EurostatAdapter.EuResp)
       (dataset : String) (params : List (String × String)) (yearsBack nowYear : Int)
       (t : List EurostatAdapter.EuRow) (c : EurostatAdapter.Cache) (l : List EurostatAdapter.EuReq),
       EurostatAdapter.fetch_eurostat_data pdDate oracle dataset params yearsBack nowYear [] =
         Except.ok (t, c, l) →
       ∀ r ∈ t, r.date.isSome = true) := by
  constructor
  · intro flow key params pdDate pdNum resp rows h
    unfold EcbAdapter.fetch_ecb_data at h
    split at h
    · exact absurd h (by simp)
    · split at h
      · injection h with h
        subst h
        intro r hr
        cases hr
      · dsimp only at h
        injection h with h
        subst h
        intro r hr
        rw [mem_sortBy] at hr
        have hm := List.mem_filter.mp hr
        have hb := hm.2
        simp only [Bool.and_eq_true] at hb
        exact hb
  · intro pdDate oracle dataset params yearsBack nowYear t c l h
    unfold EurostatAdapter.fetch_eurostat_data at h
    dsimp only at h
    split at h
    · next t0 heq => simp [getA] at heq
    · split at h
      · injection h with h
        injection h with h1 h23
        subst h1
        intro r hr
        cases hr
      · split at h
        · injection h with h
          injection h with h1 h23
          subst h1
          intro r hr
          cases hr
        · split at h
          · exact absurd h (by simp)
          · split at h
            · exact absurd h (by simp)
            · injection h with h
              injection h with h1 h23
              subst h1
              intro r hr
              rw [mem_sortBy] at hr
              exact (List.mem_filter.mp hr).2

/-- Witness for C1's amended theorem: a response mixing one clean row and
one row with an unparseable time and a non-numeric value yields a table
holding only the clean row, whose fields are parsed. -/
theorem c1_clean_rows_witness :
    EcbAdapter.fetch_ecb_data "ICP" "M.U2.N.000000.4.ANR" [] tstDate tstNum
      { status := 200, hasTimePeriod := true, hasObsValue := true, hasKey := false,
        rows := [{ tp := "2020-01", ov := "1.5", key := "" },
                 { tp := "garbage", ov := "not-a-number", key := "" }] } =
      Except.ok [{ time := some 100, value := some ((3 : Value) / 2), country := some "U2" }] ∧
    (({ time := some 100, value := some ((3 : Value) / 2),
          country := some "U2" } : EcbAdapter.NRow).time.isSome = true ∧
      ({ time := some 100, value := some ((3 : Value) / 2),
          country := some "U2" } : EcbAdapter.NRow).value.isSome = true) ∧
    EurostatAdapter.fetch_eurostat_data tstDate (fun _ => ea19Resp)
      "une_rt_m" [("geo", "EA19")] 5 2025 [] =
      Except.ok
        ([{ date := some 0, country := "Euro area - 19 countries", value := some 5 }],
         [(EurostatAdapter.cache_key "une_rt_m"
             (EurostatAdapter.buildQs [("geo", "EA19")] 2025 5),
           [{ date := some 0, country := "Euro area - 19 countries", value := some 5 }])],
         [("une_rt_m", EurostatAdapter.buildQs [("geo", "EA19")] 2025 5)]) ∧
    ({ date := some 0, country := "Euro area - 19 countries",
       value := some 5 } : EurostatAdapter.EuRow).date.isSome = true := by
  refine ⟨rfl, ?_, rfl, ?_⟩
  · exact c1_clean_rows.1 "ICP" "M.U2.N.000000.4.ANR" [] tstDate tstNum
      { status := 200, hasTimePeriod := true, hasObsValue := true, hasKey := false,
        rows := [{ tp := "2020-01", ov := "1.5", key := "" },
                 { tp := "garbage", ov := "not-a-number", key := "" }] }
      [{ time := some 100, value := some ((3 : Value) / 2), country := some "U2" }] rfl
      { time := some 100, value := some ((3 : Value) / 2), country := some "U2" } (by simp)
  · exact c1_clean_rows.2 tstDate (fun _ => ea19Resp) "une_rt_m" [("geo", "EA19")] 5 2025
      [{ date := some 0, country := "Euro area - 19 countries", value := some 5 }]
      [(EurostatAdapter.cache_key "une_rt_m"
          (EurostatAdapter.buildQs [("geo", "EA19")] 2025 5),
        [{ date := some 0, country := "Euro area - 19 countries", value := some 5 }])]
      [("une_rt_m", EurostatAdapter.buildQs [("geo", "EA19")] 2025 5)] rfl
      { date := some 0, country := "Euro area - 19 countries", value := some 5 } (by simp)

/-- Counterexample to C4 as stated: against an upstream that only serves
the euro-area aggregate under the older code EA19, a request for the
generic placeholder EA returns an empty table after a single request (no
alias is tried), even though requesting EA19 directly yields data. -/
theorem c4_counterexample :
    AiParser.eurostat_fetch tstDate ea19OnlyOracle "une_rt_m" [] "EA" =
      Except.ok ([], [("une_rt_m", [("format", "JSON"), ("lang", "EN"), ("geo", "EA")])]) ∧
    AiParser.eurostat_fetch tstDate ea19OnlyOracle "une_rt_m" [] "EA19" =
      Except.ok
        ([{ labels := [("geo", "Euro area - 19 countries"), ("time", "2020")],
            value := some 5, date := some 0 }],
         [("une_rt_m", [("format", "JSON"), ("lang", "EN"), ("geo", "EA19")])]) :=
  ⟨rfl, rfl⟩

/-- Claim C4 (amended): neither Eurostat fetcher has a region-alias
chain: every call issues exactly one request carrying the requested geo
unchanged, and if that one response is a failure the result is the empty
table, so no alternative aggregate code is ever tried. -/
theorem c4_no_alias_chain :
    (∀ (pdDate : String → Option Date) (oracle : EurostatAdapter.EuReq → EurostatAdapter.EuResp)
       (dataset : String) (params : List (String × String)) (geo : String)
       (t : List AiParser.AiEuRow) (reqs : List EurostatAdapter.EuReq),
       AiParser.eurostat_fetch pdDate oracle dataset params geo = Except.ok (t, reqs) →
       reqs = [(dataset, pyDictUpdate [("format", "JSON"), ("lang", "EN"), ("geo", geo)] params)]) ∧
    (∀ (pdDate : String → Option Date) (oracle : EurostatAdapter.EuReq → EurostatAdapter.EuResp)
       (dataset : String) (params : List (String × String)) (geo : String),
       (oracle (dataset, pyDictUpdate [("format", "JSON"), ("lang", "EN"), ("geo", geo)] params)).status ≠ 200 →
       AiParser.eurostat_fetch pdDate oracle dataset params geo =
         Except.ok ([], [(dataset, pyDictUpdate [("format", "JSON"), ("lang", "EN"), ("geo", geo)] params)])) ∧
    (∀ (pdDate : String → Option Date) (oracle : EurostatAdapter.EuReq → EurostatAdapter.EuResp)
       (dataset : String) (params : List (String × String)) (yearsBack nowYear : Int)
       (cache : EurostatAdapter.Cache) (t : List EurostatAdapter.EuRow)
       (c : EurostatAdapter.Cache) (reqs : List EurostatAdapter.EuReq),
       EurostatAdapter.fetch_eurostat_data pdDate oracle dataset params yearsBack nowYear cache =
         Except.ok (t, c, reqs) →
       reqs = [] ∨ reqs = [(dataset, EurostatAdapter.buildQs params nowYear yearsBack)]) := by
  refine ⟨?_, ?_, ?_⟩
  · intro pdDate oracle dataset params geo t reqs h
    unfold AiParser.eurostat_fetch at h
    dsimp only at h
    split at h
    · injection h with h
      injection h with h1 h2
      exact h2.symm
    · split at h
      · exact absurd h (by simp)
      · split at h
        · injection h with h
          injection h with h1 h2
          exact h2.symm
        · split at h
          · exact absurd h (by simp)
          · split at h
            · exact absurd h (by simp)
            · split at h
              · exact absurd h (by simp)
              · injection h with h
                injection h with h1 h2
                exact h2.symm
  · intro pdDate oracle dataset params geo h
    unfold AiParser.eurostat_fetch
    dsimp only
    rw [if_pos h]
  · intro pdDate oracle dataset params yearsBack nowYear cache t c reqs h
    unfold EurostatAdapter.fetch_eurostat_data at h
    dsimp only at h
    split at h
    · injection h with h
      injection h with h1 h23
      injection h23 with h2 h3
      exact Or.inl h3.symm
    · split at h
      · injection h with h
        injection h with h1 h23
        injection h23 with h2 h3
        exact Or.inr h3.symm
      · split at h
        · injection h with h
          injection h with h1 h23
          injection h23 with h2 h3
          exact Or.inr h3.symm
        · split at h
          · exact absurd h (by simp)
          · split at h
            · exact absurd h (by simp)
            · injection h with h
              injection h with h1 h23
              injection h23 with h2 h3
              exact Or.inr h3.symm

/-- Witness for C4's amended theorem at concrete calls. -/
theorem c4_no_alias_chain_witness :
    AiParser.eurostat_fetch tstDate ea19OnlyOracle "une_rt_m" [] "EA19" =
      Except.ok
        ([{ labels := [("geo", "Euro area - 19 countries"), ("time", "2020")],
            value := some 5, date := some 0 }],
         [("une_rt_m", [("format", "JSON"), ("lang", "EN"), ("geo", "EA19")])]) ∧
    ([("une_rt_m", [("format", "JSON"), ("lang", "EN"), ("geo", "EA19")])] :
        List EurostatAdapter.EuReq) =
      [("une_rt_m", pyDictUpdate [("format", "JSON"), ("lang", "EN"), ("geo", "EA19")] [])] ∧
    AiParser.eurostat_fetch tstDate ea19OnlyOracle "une_rt_m" [] "EA" =
      Except.ok ([], [("une_rt_m", pyDictUpdate [("format", "JSON"), ("lang", "EN"), ("geo", "EA")] [])]) := by
  refine ⟨rfl, ?_, ?_⟩
  · exact (c4_no_alias_chain.1 tstDate ea19OnlyOracle "une_rt_m" [] "EA19"
      [{ labels := [("geo", "Euro area - 19 countries"), ("time", "2020")],
         value := some 5, date := some 0 }]
      [("une_rt_m", [("format", "JSON"), ("lang", "EN"), ("geo", "EA19")])] rfl)
  · exact c4_no_alias_chain.2.1 tstDate ea19OnlyOracle "une_rt_m" [] "EA" (by decide)

theorem lexLe_total : ∀ a b : List Char, lexLe a b = true ∨ lexLe b a = true := by
  intro a
  induction a with
  | nil => intro b; left; rfl
  | cons x xs ih =>
    intro b
    cases b with
    | nil => right; rfl
    | cons y ys =>
      by_cases h1 : x.toNat < y.toNat
      · left; simp [lexLe, h1]
      · by_cases h2 : y.toNat < x.toNat
        · right; simp [lexLe, h2]
        · rcases ih ys with h | h
          · left; simp [lexLe, h1, h2, h]
          · right; simp [lexLe, h1, h2, h]

theorem lexLe_trans : ∀ a b c : List Char,
    lexLe a b = true → lexLe b c = true → lexLe a c = true := by
  intro a
  induction a with
  | nil => intro b c h1 h2; rfl
  | cons x xs ih =>
    intro b c h1 h2
    cases b with
    | nil => simp [lexLe] at h1
    | cons y ys =>
      cases c with
      | nil => simp [lexLe] at h2
      | cons z zs =>
        simp only [lexLe] at h1 h2 ⊢
        rcases Nat.lt_trichotomy x.toNat y.toNat with hxy | hxy | hxy
        · rcases Nat.lt_trichotomy y.toNat z.toNat with hyz | hyz | hyz
          · simp [show x.toNat < z.toNat by omega]
          · simp [show x.toNat < z.toNat by omega]
          · exfalso
            simp [show ¬ y.toNat < z.toNat by omega, hyz] at h2
        · rcases Nat.lt_trichotomy y.toNat z.toNat with hyz | hyz | hyz
          · simp [show x.toNat < z.toNat by omega]
          · simp only [show ¬ x.toNat < y.toNat by omega,
              show ¬ y.toNat < x.toNat by omega, if_false, ite_false, if_neg] at h1
            simp only [show ¬ y.toNat < z.toNat by omega,
              show ¬ z.toNat < y.toNat by omega, if_false, ite_false, if_neg] at h2
            simp only [show ¬ x.toNat < z.toNat by omega,
              show ¬ z.toNat < x.toNat by omega, if_false, ite_false, if_neg]
            exact ih ys zs h1 h2
          · exfalso
            simp [show ¬ y.toNat < z.toNat by omega, hyz] at h2
        · exfalso
          simp [show ¬ x.toNat < y.toNat by omega, hxy] at h1

theorem lexLe_antisymm : ∀ a b : List Char,
    lexLe a b = true → lexLe b a = true → a = b := by
  intro a
  induction a with
  | nil =>
    intro b h1 h2
    cases b with
    | nil => rfl
    | cons y ys => simp [lexLe] at h2
  | cons x xs ih =>
    intro b h1 h2
    cases b with
    | nil => simp [lexLe] at h1
    | cons y ys =>
      simp only [lexLe] at h1 h2
      by_cases hxy : x.toNat < y.toNat
      · exfalso
        simp [show ¬ y.toNat < x.toNat by omega, hxy] at h2
      · by_cases hyx : y.toNat < x.toNat
        · exfalso
          simp [hxy, hyx] at h1
        · have hchar : x = y := Char.ext (UInt32.ext (show x.toNat = y.toNat by omega))
          subst hchar
          simp only [hxy, if_neg, ite_false, if_false] at h1 h2
          rw [ih ys h1 h2]

theorem insBy_perm {α : Type} (le : α → α → Bool) (x : α) (l : List α) :
    (insBy le x l).Perm (x :: l) := by
  induction l with
  | nil => simp [insBy]
  | cons y ys ih =>
    simp only [insBy]
    split
    · exact List.Perm.refl _
    · exact (List.Perm.cons y ih).trans (List.Perm.swap x y ys)

theorem sortBy_perm {α : Type} (le : α → α → Bool) (l : List α) :
    (sortBy le l).Perm l := by
  induction l with
  | nil => simp [sortBy]
  | cons x xs ih =>
    exact (insBy_perm le x (sortBy le xs)).trans (List.Perm.cons x ih)

theorem insBy_pairwise (x : String × String) (l : List (String × String))
    (hl : l.Pairwise keyLt) (hx : ∀ y ∈ l, x.1 ≠ y.1) :
    (insBy keyLe x l).Pairwise keyLt := by
  induction l with
  | nil => simp [insBy, List.pairwise_cons]
  | cons y ys ih =>
    rw [List.pairwise_cons] at hl
    simp only [insBy]
    split
    · next hle =>
      rw [List.pairwise_cons]
      constructor
      · intro z hz
        rcases List.mem_cons.mp hz with hz | hz
        · subst hz
          exact ⟨hle, hx _ (List.mem_cons_self _ _)⟩
        · have hyz := hl.1 z hz
          exact ⟨lexLe_trans _ _ _ hle hyz.1, hx _ (List.mem_cons_of_mem _ hz)⟩
      · rw [List.pairwise_cons]
        exact hl
    · next hle =>
      rw [List.pairwise_cons]
      constructor
      · intro z hz
        have hz2 := (insBy_perm keyLe x ys).mem_iff.mp hz
        rcases List.mem_cons.mp hz2 with hz2 | hz2
        · rw [hz2]
          have hxne := hx y (List.mem_cons_self _ _)
          rcases lexLe_total x.1.data y.1.data with ht | ht
          · exact absurd ht (by simpa [keyLe] using hle)
          · exact ⟨ht, fun hc => hxne hc.symm⟩
        · exact hl.1 z hz2
      · exact ih hl.2 (fun z hz => hx z (List.mem_cons_of_mem _ hz))

theorem sortBy_pairwise (l : List (String × String)) (hnd : (l.map Prod.fst).Nodup) :
    (sortBy keyLe l).Pairwise keyLt := by
  induction l with
  | nil => simp [sortBy]
  | cons x xs ih =>
    rw [List.map_cons, List.nodup_cons] at hnd
    refine insBy_pairwise x (sortBy keyLe xs) (ih hnd.2) ?_
    intro y hy
    have hy2 := (mem_sortBy keyLe y xs).mp hy
    intro hc
    exact hnd.1 (hc ▸ List.mem_map_of_mem Prod.fst hy2)

theorem sortBy_eq_of_perm (l1 l2 : List (String × String)) (hp : l1.Perm l2)
    (hnd : (l1.map Prod.fst).Nodup) :
    sortBy keyLe l1 = sortBy keyLe l2 := by
  have hnd2 : (l2.map Prod.fst).Nodup := ((hp.map Prod.fst).nodup_iff).mp hnd
  have hperm : (sortBy keyLe l1).Perm (sortBy keyLe l2) :=
    (sortBy_perm keyLe l1).trans (hp.trans (sortBy_perm keyLe l2).symm)
  haveI : IsAntisymm (String × String) keyLt := by
    constructor
    intro a b h1 h2
    exact absurd (lexLe_antisymm _ _ h1.1 h2.1) (by
      intro hc
      apply h1.2
      have ha : a.1 = String.mk a.1.data := rfl
      have hb : b.1 = String.mk b.1.data := rfl
      rw [ha, hb, hc])
  exact List.eq_of_perm_of_sorted hperm (sortBy_pairwise l1 hnd) (sortBy_pairwise l2 hnd2)

/-- Counterexample to C5 as stated: the ebc_adapter cache key ignores the
parameter mapping.  A first fetch with startPeriod 2020-01 stores its
table; a second fetch with startPeriod 1999-01 returns that stale table
with no network access, even though the upstream would serve a different
table for the second window. -/
theorem c5_counterexample :
    EbcAdapter.fetch_ecb_data tstDate tstNum envIcp "ICP" "M.U2.N"
      [("startPeriod", PVal.s "2020-01")] true [] =
      (tblIcp, [("ICP_M_U2_N.csv", tblIcp)], ["ecbdata"]) ∧
    EbcAdapter.fetch_ecb_data tstDate tstNum env99 "ICP" "M.U2.N"
      [("startPeriod", PVal.s "1999-01")] true [("ICP_M_U2_N.csv", tblIcp)] =
      (tblIcp, [("ICP_M_U2_N.csv", tblIcp)], []) ∧
    ([("startPeriod", PVal.s "2020-01")] : List (String × PVal)) ≠
      [("startPeriod", PVal.s "1999-01")] ∧
    EbcAdapter.fetch_ecb_data tstDate tstNum env99 "ICP" "M.U2.N"
      [("startPeriod", PVal.s "1999-01")] true [] =
      ([{ time := some 50, value := some ((99 : Value) / 10), country := "U2", flow := "ICP" }],
       [("ICP_M_U2_N.csv",
         [{ time := some 50, value := some ((99 : Value) / 10), country := "U2", flow := "ICP" }])],
       ["ecbdata"]) :=
  ⟨rfl, rfl, by decide, rfl⟩

/-- Claim C5 (amended): the Eurostat adapter keys its cache by a
deterministic digest of the dataset id and the sorted full parameter
mapping (permuting a duplicate-free mapping leaves the key unchanged), and
a cache hit returns the stored table with no request; the ebc_adapter
cache also short-circuits the network on a hit, but its key is derived
from flow and series only. -/
theorem c5_cache_keying :
    (∀ (pdDate : String → Option Date) (oracle : EurostatAdapter.EuReq → EurostatAdapter.EuResp)
       (dataset : String) (params : List (String × String)) (yearsBack nowYear : Int)
       (cache : EurostatAdapter.Cache) (t : List EurostatAdapter.EuRow),
       getA cache (EurostatAdapter.cache_key dataset
         (EurostatAdapter.buildQs params nowYear yearsBack)) = some t →
       EurostatAdapter.fetch_eurostat_data pdDate oracle dataset params yearsBack nowYear cache =
         Except.ok (t, cache, [])) ∧
    (∀ (dataset : String) (qs1 qs2 : List (String × String)), qs1.Perm qs2 →
       (qs1.map Prod.fst).Nodup →
       EurostatAdapter.cache_key dataset qs1 = EurostatAdapter.cache_key dataset qs2) ∧
    (∀ (pdDate : String → Option Date) (pdNum : String → Option Value) (env : EbcAdapter.Env)
       (flow key : String) (params : List (String × PVal)) (store : EbcAdapter.Store)
       (t : List EbcAdapter.NRow4),
       getA store (EbcAdapter.cacheName flow key) = some t →
       EbcAdapter.fetch_ecb_data pdDate pdNum env flow key params true store = (t, store, [])) := by
  refine ⟨?_, ?_, ?_⟩
  · intro pdDate oracle dataset params yearsBack nowYear cache t h
    unfold EurostatAdapter.fetch_eurostat_data
    dsimp only
    rw [h]
  · intro dataset qs1 qs2 hp hnd
    unfold EurostatAdapter.cache_key EurostatAdapter.jsonDumpsSorted
    rw [sortBy_eq_of_perm qs1 qs2 hp hnd]
  · intro pdDate pdNum env flow key params store t h
    unfold EbcAdapter.fetch_ecb_data
    dsimp only
    rw [show (if (true = true) then getA store (EbcAdapter.cacheName flow key) else none)
      = getA store (EbcAdapter.cacheName flow key) from rfl, h]

/-- Witness for C5's amended theorem at concrete stores and mappings. -/
theorem c5_cache_keying_witness :
    EurostatAdapter.fetch_eurostat_data tstDate (fun _ => notFoundResp) "une_rt_m" [] 5 2025
      [(EurostatAdapter.cache_key "une_rt_m" (EurostatAdapter.buildQs [] 2025 5),
        [{ date := some 0, country := "Euro area - 19 countries", value := some 5 }])] =
      Except.ok
        ([{ date := some 0, country := "Euro area - 19 countries", value := some 5 }],
         [(EurostatAdapter.cache_key "une_rt_m" (EurostatAdapter.buildQs [] 2025 5),
           [{ date := some 0, country := "Euro area - 19 countries", value := some 5 }])],
         []) ∧
    EurostatAdapter.cache_key "une_rt_m" [("geo", "EA"), ("sex", "T")] =
      EurostatAdapter.cache_key "une_rt_m" [("sex", "T"), ("geo", "EA")] ∧
    EbcAdapter.fetch_ecb_data tstDate tstNum env99 "ICP" "M.U2.N"
      [("startPeriod", PVal.s "1999-01")] true [("ICP_M_U2_N.csv", tblIcp)] =
      (tblIcp, [("ICP_M_U2_N.csv", tblIcp)], []) :=
  ⟨c5_cache_keying.1 tstDate (fun _ => notFoundResp) "une_rt_m" [] 5 2025
     [(EurostatAdapter.cache_key "une_rt_m" (EurostatAdapter.buildQs [] 2025 5),
       [{ date := some 0, country := "Euro area - 19 countries", value := some 5 }])]
     [{ date := some 0, country := "Euro area - 19 countries", value := some 5 }]
     rfl,
   c5_cache_keying.2.1 "une_rt_m" [("geo", "EA"), ("sex", "T")] [("sex", "T"), ("geo", "EA")]
     (by decide) (by decide),
   c5_cache_keying.2.2 tstDate tstNum env99 "ICP" "M.U2.N"
     [("startPeriod", PVal.s "1999-01")] [("ICP_M_U2_N.csv", tblIcp)] tblIcp rfl⟩

end EuBot
